import Mathlib

/-!
Shallow embedding of `crates/zed/src/languages/json.rs` (the JSON language
server adapter): path utilities, the binary-provisioning lifecycle
(`fetch_latest_server_version`, `fetch_server_binary`,
`get_cached_server_binary`, `cached_server_binary`,
`installation_test_binary`) and the configuration builder
(`workspace_configuration`, `schema_file_match`).

Filesystem and package-manager effects are modelled by explicit state
passing: a `Filesystem` gives the observable answers of `read_dir` and
metadata/existence queries, and `NodeRuntime.npm_install_packages` maps a
filesystem to a result together with the filesystem left behind.  A
possible panic (an `unwrap` failing) is modelled by `POutcome.panics`.
-/

set_option autoImplicit false

/-- A filesystem path, modelled as an absoluteness flag plus the list of
normal components (mirrors `std::path::Path` as used by the source). -/
structure RPath where
  absolute : Bool
  components : List String
deriving DecidableEq, Repr

/-- Embedding of `Path::join` with a list of extra components. -/
def RPath.join (p : RPath) (cs : List String) : RPath :=
  ⟨p.absolute, p.components ++ cs⟩

/-- Embedding of `Path::parent`: drop the last component; `None` for the root `/` and for
the empty relative path (mirrors Rust semantics on normal components). -/
def RPath.parent? (p : RPath) : Option RPath :=
  match p.components with
  | [] => none
  | _ :: _ => some ⟨p.absolute, p.components.dropLast⟩

/-- Embedding of `Path::strip_prefix`: succeeds when `pre`'s components lead `p`'s and
the absoluteness flags agree; the result is relative. -/
def RPath.stripPref (p pre : RPath) : Option RPath :=
  if pre.absolute = p.absolute ∧ pre.components.isPrefixOf p.components then
    some ⟨false, p.components.drop pre.components.length⟩
  else
    none

/-- An `OsString` argument: either a path converted in, or a literal. -/
inductive OsStr where
  | path (p : RPath)
  | str (s : String)
deriving DecidableEq, Repr

/-- Embedding of `lsp::LanguageServerBinary`: executable path plus argument vector. -/
structure LanguageServerBinary where
  path : RPath
  arguments : List OsStr
deriving DecidableEq, Repr

/-- The `const SERVER_PATH` of the source. -/
def SERVER_PATH : String :=
  "node_modules/vscode-json-languageserver/bin/vscode-json-languageserver"

/-- The list form of `SERVER_PATH` as path components (what `container_dir.join(SERVER_PATH)`
appends): the four slash-separated segments of `SERVER_PATH`. -/
def serverPathComponents : List String :=
  ["node_modules", "vscode-json-languageserver", "bin",
   "vscode-json-languageserver"]

/-- Embedding of `fn server_binary_arguments`: `vec![server_path.into(), "--stdio".into()]`. -/
def server_binary_arguments (server_path : RPath) : List OsStr :=
  [OsStr.path server_path, OsStr.str "--stdio"]

/-- Outcome of one directory entry yielded by `read_dir`: the entry read may
itself fail, and if it succeeds the `file_type()` query may fail (`none`) or
report whether the entry is a directory. -/
inductive EntryRead where
  | err
  | ok (name : String) (fileTypeIsDir : Option Bool)
deriving DecidableEq, Repr

/-- Observable filesystem behaviour during one operation: what `read_dir`
returns on a directory (`none` models an I/O error), and whether a
metadata/existence query on a path succeeds. -/
structure Filesystem where
  readDir : RPath → Option (List EntryRead)
  pathExists : RPath → Bool

/-- The `NodeRuntime` collaborator: latest-version lookup, package
installation (which may alter the filesystem), and the runtime binary path. -/
structure NodeRuntime where
  npm_package_latest_version : String → Except String String
  npm_install_packages : RPath → String → String → Filesystem → Except String Unit × Filesystem
  binary_path : Except String RPath

/-- A type-erased `Box<dyn Any>` value: the only payload the source ever
produces is a `String`; anything else makes the downcast fail. -/
inductive AnyValue where
  | str (s : String)
  | other
deriving DecidableEq, Repr

/-- Result of an operation that may panic (a failing `unwrap`). -/
inductive POutcome (α : Type) where
  | panics
  | returns (a : α)

/-- Projection to the returned value, if no panic occurred. -/
def POutcome.toOption {α : Type} : POutcome α → Option α
  | POutcome.panics => none
  | POutcome.returns a => some a

/-- Embedding of `ResultExt::log_err`: log and discard the error, keep the value. -/
def log_err {α : Type} : Except String α → Option α
  | Except.ok a => some a
  | Except.error _ => none

/-- Embedding of `fetch_latest_server_version`: wrap
`node.npm_package_latest_version("vscode-json-languageserver")` in a
type-erased box, propagating errors. -/
def fetch_latest_server_version (node : NodeRuntime) : Except String AnyValue :=
  (node.npm_package_latest_version "vscode-json-languageserver").map AnyValue.str

/-- The final `Ok(LanguageServerBinary { path: node.binary_path().await?,
arguments: server_binary_arguments(&server_path) })` of
`fetch_server_binary` and `get_cached_server_binary`. -/
def finishBinary (node : NodeRuntime) (server_path : RPath) :
    Except String LanguageServerBinary :=
  match node.binary_path with
  | Except.error e => Except.error e
  | Except.ok bp =>
      Except.ok { path := bp, arguments := server_binary_arguments server_path }

/-- Embedding of `fetch_server_binary`.  The version box is downcast to `String`
(panicking otherwise); if metadata on `container_dir/SERVER_PATH` fails the
package is installed.  The result carries the `Except`-typed return value,
the filesystem after the call, and the number of `npm_install_packages`
invocations (0 or 1) for the idempotence analysis. -/
def fetch_server_binary (node : NodeRuntime) (version : AnyValue)
    (container_dir : RPath) (fs : Filesystem) :
    POutcome (Except String LanguageServerBinary × Filesystem × Nat) :=
  match version with
  | AnyValue.str v =>
    let server_path := container_dir.join serverPathComponents
    if fs.pathExists server_path then
      POutcome.returns (finishBinary node server_path, fs, 0)
    else
      let ir := node.npm_install_packages container_dir
        "vscode-json-languageserver" v fs
      match ir.1 with
      | Except.error e => POutcome.returns (Except.error e, ir.2, 1)
      | Except.ok _ => POutcome.returns (finishBinary node server_path, ir.2, 1)
  | AnyValue.other => POutcome.panics

/-- The `while let Some(entry) = entries.next()` loop of
`get_cached_server_binary`: any entry error or file-type error aborts with
`Err`; each directory-typed entry overwrites `last_version_dir` with its
path. -/
def scan_entries (container_dir : RPath) :
    List EntryRead → Option RPath → Except String (Option RPath)
  | [], acc => Except.ok acc
  | EntryRead.err :: _, _ => Except.error "failed to read directory entry"
  | EntryRead.ok _ none :: _, _ => Except.error "failed to read file type"
  | EntryRead.ok name (some isDir) :: rest, acc =>
      scan_entries container_dir rest
        (if isDir then some (container_dir.join [name]) else acc)

/-- Embedding of `get_cached_server_binary`: scan the container directory, take the last
subdirectory observed, require its `SERVER_PATH` entry point to exist, and
build the launch descriptor; every error is absorbed by `log_err`. -/
def get_cached_server_binary (node : NodeRuntime) (container_dir : RPath)
    (fs : Filesystem) : Option LanguageServerBinary :=
  log_err
    (match fs.readDir container_dir with
     | none => Except.error "failed to read directory"
     | some entries =>
       match scan_entries container_dir entries none with
       | Except.error e => Except.error e
       | Except.ok none => Except.error "no cached binary"
       | Except.ok (some last_version_dir) =>
         let server_path := last_version_dir.join serverPathComponents
         if fs.pathExists server_path then
           finishBinary node server_path
         else
           Except.error "missing executable in directory")

/-- The delegate argument of the adapter methods (unused by the source). -/
structure LspAdapterDelegate where
  unused : Unit

/-- Embedding of `cached_server_binary`: delegates to `get_cached_server_binary`. -/
def cached_server_binary (node : NodeRuntime) (container_dir : RPath)
    (_delegate : LspAdapterDelegate) (fs : Filesystem) :
    Option LanguageServerBinary :=
  get_cached_server_binary node container_dir fs

/-- Embedding of `installation_test_binary`: delegates to `get_cached_server_binary`. -/
def installation_test_binary (node : NodeRuntime) (container_dir : RPath)
    (fs : Filesystem) : Option LanguageServerBinary :=
  get_cached_server_binary node container_dir fs

/-- Embedding of `schema_file_match`:
`path.strip_prefix(path.parent().unwrap().parent().unwrap()).unwrap()`, with
each `unwrap` panic modelled as `none`. -/
def schema_file_match (path : RPath) : Option RPath :=
  match path.parent? with
  | none => none
  | some p1 =>
    match p1.parent? with
    | none => none
    | some p2 => path.stripPref p2

/-- A JSON-shaped document (`serde_json::Value`). -/
inductive JsonValue where
  | null
  | bool (b : Bool)
  | str (s : String)
  | num (n : Int)
  | arr (xs : List JsonValue)
  | obj (fields : List (String × JsonValue))

/-- Look a key up in an object document. -/
def JsonValue.getField : JsonValue → String → Option JsonValue
  | JsonValue.obj fields, key => fields.lookup key
  | _, _ => none

/-- The elements of an array document. -/
def JsonValue.getArr : JsonValue → Option (List JsonValue)
  | JsonValue.arr xs => some xs
  | _ => none

/-- Serialization of a path into a JSON string (how `serde_json` renders a
`Path`). -/
def renderPath (p : RPath) : String :=
  (if p.absolute then "/" else "") ++ String.intercalate "/" p.components

/-- Modelled from the spec: the host-context capabilities consumed by
`workspace_configuration`, which live outside this unit (the action
registry `cx.all_action_names()`, the staff flag `cx.is_staff()`, the
settings store's `json_schema`, `KeymapFile::generate_json_schema`, and the
well-known path constants `paths::SETTINGS`, `paths::KEYMAP`,
`paths::LOCAL_SETTINGS_RELATIVE_PATH`). -/
structure HostContext where
  all_action_names : List String
  is_staff : Bool
  settings_json_schema : List String → Bool → JsonValue
  keymap_json_schema : List String → JsonValue
  settingsPath : RPath
  keymapPath : RPath
  localSettingsRelativePath : RPath

/-- Embedding of `initialization_options`: the fixed document enabling the formatter. -/
def initialization_options : JsonValue :=
  JsonValue.obj [("provideFormatter", JsonValue.bool true)]

/-- Embedding of `workspace_configuration`: read the action names, staff flag and
language names fresh from the host, ask the settings store for the settings
schema, and assemble the two schema bindings.  The `schema_file_match`
calls `unwrap` internally, so a too-short path constant panics. -/
def workspace_configuration (language_names : List String)
    (cx : HostContext) : POutcome JsonValue :=
  let action_names := cx.all_action_names
  let staff_mode := cx.is_staff
  let settings_schema := cx.settings_json_schema language_names staff_mode
  match schema_file_match cx.settingsPath, schema_file_match cx.keymapPath with
  | some settingsMatch, some keymapMatch =>
    POutcome.returns (JsonValue.obj [("json", JsonValue.obj
      [("format", JsonValue.obj [("enable", JsonValue.bool true)]),
       ("schemas", JsonValue.arr
         [JsonValue.obj
            [("fileMatch", JsonValue.arr
               [JsonValue.str (renderPath settingsMatch),
                JsonValue.str (renderPath cx.localSettingsRelativePath)]),
             ("schema", settings_schema)],
          JsonValue.obj
            [("fileMatch", JsonValue.arr
               [JsonValue.str (renderPath keymapMatch)]),
             ("schema", cx.keymap_json_schema action_names)]])])])
  | _, _ => POutcome.panics

/-! ### Concrete fixtures for counterexamples and witnesses -/

/-- A concrete container directory. -/
def dirC : RPath := ⟨true, ["cache"]⟩

/-- The entry-point path inside version subdirectory `v1` of `dirC`. -/
def sp1 : RPath := (dirC.join ["v1"]).join serverPathComponents

/-- The entry-point path inside version subdirectory `v2` of `dirC`. -/
def sp2 : RPath := (dirC.join ["v2"]).join serverPathComponents

/-- The expected entry-point path directly under `dirC` (used by
`fetch_server_binary`). -/
def spTop : RPath := dirC.join serverPathComponents

/-- Two version subdirectories, enumerated as `v1` then `v2`. -/
def entriesTwo : List EntryRead :=
  [EntryRead.ok "v1" (some true), EntryRead.ok "v2" (some true)]

/-- Filesystem where `dirC` holds `v1` (valid entry point) and `v2`
(missing entry point), `v2` enumerated last. -/
def fsLastInvalid : Filesystem :=
  { readDir := fun p => if p = dirC then some entriesTwo else none,
    pathExists := fun p => decide (p = sp1) }

/-- Filesystem with nothing in it: every directory read fails, no path
exists. -/
def fsEmpty : Filesystem :=
  { readDir := fun _ => none, pathExists := fun _ => false }

/-- Filesystem where `dirC` exists but is empty. -/
def fsNoSub : Filesystem :=
  { readDir := fun p => if p = dirC then some [] else none,
    pathExists := fun _ => false }

/-- The runtime executable path used by the concrete node runtimes. -/
def nodeBin : RPath := ⟨true, ["usr", "bin", "node"]⟩

/-- A node runtime whose transport always succeeds but whose installation
leaves the filesystem untouched (installs nothing). -/
def nodeNoop : NodeRuntime :=
  { npm_package_latest_version := fun _ => Except.ok "1.0.0",
    npm_install_packages := fun _ _ _ fs => (Except.ok (), fs),
    binary_path := Except.ok nodeBin }

/-- A node runtime whose installation succeeds and creates the expected
entry-point file under the target container directory. -/
def nodeCreating : NodeRuntime :=
  { npm_package_latest_version := fun _ => Except.ok "1.0.0",
    npm_install_packages := fun d _ _ fs =>
      (Except.ok (),
       { readDir := fs.readDir,
         pathExists := fun p =>
           decide (p = d.join serverPathComponents) || fs.pathExists p }),
    binary_path := Except.ok nodeBin }

/-- A concrete delegate value. -/
def delegateC : LspAdapterDelegate := ⟨()⟩

/-- A concrete host context with two-component-or-longer path constants. -/
def cxC : HostContext :=
  { all_action_names := ["editor: open"],
    is_staff := false,
    settings_json_schema := fun _ _ => JsonValue.null,
    keymap_json_schema := fun _ => JsonValue.null,
    settingsPath := ⟨true, ["root", ".config", "zed", "settings.json"]⟩,
    keymapPath := ⟨true, ["root", ".config", "zed", "keymap.json"]⟩,
    localSettingsRelativePath := ⟨false, [".zed", "settings.json"]⟩ }

/-! ### Helper lemmas -/

/-- The function `schema_file_match` succeeds exactly on paths with at least two
components (equivalently: a parent and a grandparent exist). -/
theorem schema_file_match_isSome_iff (p : RPath) :
    (schema_file_match p).isSome = true ↔ 2 ≤ p.components.length := by
  obtain ⟨abs, cs⟩ := p
  match cs with
  | [] => simp [schema_file_match, RPath.parent?]
  | [a] => simp [schema_file_match, RPath.parent?]
  | a :: b :: rest =>
    have hpre : ((a :: b :: rest).dropLast.dropLast).isPrefixOf
        (a :: b :: rest) = true :=
      List.isPrefixOf_iff_prefix.mpr
        (( List.dropLast_prefix _).trans ( List.dropLast_prefix _))
    show (RPath.stripPref ⟨abs, a :: b :: rest⟩
        ⟨abs, (a :: b :: rest).dropLast.dropLast⟩).isSome = true ↔
      2 ≤ (a :: b :: rest).length
    unfold RPath.stripPref
    rw [if_pos ⟨rfl, hpre⟩]
    simp

/-- A successful `schema_file_match` value, extracted from the length bound. -/
theorem schema_file_match_some_of_len {p : RPath}
    (h : 2 ≤ p.components.length) : ∃ q, schema_file_match p = some q :=
  Option.isSome_iff_exists.mp ((schema_file_match_isSome_iff p).mpr h)

/-! ### Claims -/

/-- Claim C5 counterexample: the source strips the path's own grandparent
(`/a/b`), so `/a/b/c/settings.json` relativizes to `c/settings.json`, not
to the claimed `b/c/settings.json`. -/
theorem c5_counterexample :
    schema_file_match ⟨true, ["a", "b", "c", "settings.json"]⟩ =
      some ⟨false, ["c", "settings.json"]⟩ ∧
    (⟨false, ["c", "settings.json"]⟩ : RPath) ≠
      ⟨false, ["b", "c", "settings.json"]⟩ :=
  ⟨by decide, by decide⟩

/-- Claim C5 (amended): `schema_file_match` applied to
`/a/b/c/settings.json` yields `c/settings.json`, the path relative to the
input's own two-level-up ancestor `/a/b`; the function is pure, so the same
input always yields this same output. -/
theorem c5_schema_file_match_eval :
    schema_file_match ⟨true, ["a", "b", "c", "settings.json"]⟩ =
      some ⟨false, ["c", "settings.json"]⟩ := by
  decide

/-- Claim C6: `schema_file_match` completes without any `unwrap` panic
exactly when the path has at least two ancestor components (a parent and a
grandparent, i.e. at least two path components); on shorter paths an
`unwrap` fails, a fatal panic rather than a recoverable error. -/
theorem c6_schema_file_match_total :
    ∀ p : RPath, (schema_file_match p).isSome = true ↔ 2 ≤ p.components.length :=
  schema_file_match_isSome_iff

/-- Witness for C6 at a concrete two-component path. -/
theorem c6_witness :
    (schema_file_match ⟨true, ["zed", "settings.json"]⟩).isSome = true :=
  (c6_schema_file_match_total ⟨true, ["zed", "settings.json"]⟩).mpr (by decide)

/-- Claim C9: `installation_test_binary` and `cached_server_binary` agree on
every node runtime, container directory, delegate and filesystem — both
delegate to `get_cached_server_binary`. -/
theorem c9_installation_test_binary_eq_cached (node : NodeRuntime)
    (container_dir : RPath) (d : LspAdapterDelegate) (fs : Filesystem) :
    installation_test_binary node container_dir fs =
      cached_server_binary node container_dir d fs :=
  rfl

/-- Claim C7 counterexample: passing a type-erased version value that is not
a `String` makes `fetch_server_binary` panic on the `downcast` `unwrap`, so
the operation does not surface a typed failure for every input. -/
theorem c7_counterexample :
    fetch_server_binary nodeNoop AnyValue.other dirC fsEmpty = POutcome.panics :=
  rfl

/-- Claim C7 (amended): `fetch_latest_server_version` propagates transport
errors as `Err` and never panics, and `fetch_server_binary` never panics —
surfacing every failure as `Err` — whenever the type-erased version value is
a `String`, as produced by `fetch_latest_server_version`; a non-`String`
value instead panics on the `downcast` `unwrap`. -/
theorem c7_error_propagation :
    (∀ (node : NodeRuntime) (v : String) (dir : RPath) (fs : Filesystem),
        fetch_server_binary node (AnyValue.str v) dir fs ≠ POutcome.panics) ∧
    (∀ (node : NodeRuntime) (e : String),
        node.npm_package_latest_version "vscode-json-languageserver" =
          Except.error e →
        fetch_latest_server_version node = Except.error e) ∧
    (∀ (node : NodeRuntime) (s : String),
        node.npm_package_latest_version "vscode-json-languageserver" =
          Except.ok s →
        fetch_latest_server_version node = Except.ok (AnyValue.str s)) := by
  refine ⟨?_, ?_, ?_⟩
  · intro node v dir fs h
    simp only [fetch_server_binary] at h
    by_cases hex :
        fs.pathExists (dir.join serverPathComponents) = true
    · rw [if_pos hex] at h
      exact POutcome.noConfusion h
    · rw [if_neg hex] at h
      rcases hir : (node.npm_install_packages dir
          "vscode-json-languageserver" v fs).1 with e | u
      · rw [hir] at h
        exact POutcome.noConfusion h
      · rw [hir] at h
        exact POutcome.noConfusion h
  · intro node e h
    simp [fetch_latest_server_version, h, Except.map]
  · intro node s h
    simp [fetch_latest_server_version, h, Except.map]

/-- Witness for C7 at a concrete string version and a concrete failing
transport. -/
theorem c7_witness :
    fetch_server_binary nodeNoop (AnyValue.str "1.0.0") dirC fsEmpty ≠
      POutcome.panics :=
  c7_error_propagation.1 nodeNoop "1.0.0" dirC fsEmpty

/-- Filesystem where `dirC` holds exactly one subdirectory `v1` whose entry
point exists. -/
def fsOneValid : Filesystem :=
  { readDir := fun p =>
      if p = dirC then some [EntryRead.ok "v1" (some true)] else none,
    pathExists := fun p => decide (p = sp1) }

/-- Claim C1 counterexample: `dirC` contains subdirectory `v1` with a valid
entry point and subdirectory `v2` (enumerated last) without one, yet
`get_cached_server_binary` returns `none` — refuting that an empty result
occurs only when no subdirectory has a valid entry point. -/
theorem c1_counterexample :
    get_cached_server_binary nodeNoop dirC fsLastInvalid = none ∧
    fsLastInvalid.readDir dirC = some entriesTwo ∧
    EntryRead.ok "v1" (some true) ∈ entriesTwo ∧
    fsLastInvalid.pathExists sp1 = true :=
  ⟨by decide, by decide, by decide, by decide⟩

/-- Claim C1 (amended): `get_cached_server_binary` decides solely on the
last-enumerated subdirectory: when the scan completes and the last
subdirectory observed is `d`, it returns a descriptor referencing `d`'s
entry point if that entry point exists (and the runtime path resolves), and
returns `none` when `d`'s entry point is missing — even if an earlier
subdirectory has a valid entry point. -/
theorem c1_last_dir_decides (node : NodeRuntime) (dir : RPath)
    (fs : Filesystem) (entries : List EntryRead) (d : RPath)
    (hrd : fs.readDir dir = some entries)
    (hsc : scan_entries dir entries none = Except.ok (some d)) :
    (∀ bp : RPath, node.binary_path = Except.ok bp →
      fs.pathExists (d.join serverPathComponents) = true →
      get_cached_server_binary node dir fs =
        some ⟨bp, server_binary_arguments (d.join serverPathComponents)⟩) ∧
    (fs.pathExists (d.join serverPathComponents) = false →
      get_cached_server_binary node dir fs = none) := by
  constructor
  · intro bp hbp hex
    unfold get_cached_server_binary
    simp only [hrd, hsc]
    rw [if_pos hex]
    unfold finishBinary
    rw [hbp]
    rfl
  · intro hex
    unfold get_cached_server_binary
    simp only [hrd, hsc]
    rw [if_neg (by simp [hex])]
    rfl

/-- Witness for C1 at a concrete one-subdirectory cache with a valid entry
point. -/
theorem c1_witness :
    get_cached_server_binary nodeNoop dirC fsOneValid =
      some ⟨nodeBin,
        server_binary_arguments ((dirC.join ["v1"]).join serverPathComponents)⟩ :=
  (c1_last_dir_decides nodeNoop dirC fsOneValid
      [EntryRead.ok "v1" (some true)] (dirC.join ["v1"])
      (by decide) rfl).1 nodeBin rfl (by decide)

/-- If a directory entry fails to read, the scan loop aborts with an error
(for any accumulator). -/
theorem scan_entries_error_of_entry_err (dir : RPath) :
    ∀ (entries : List EntryRead) (acc : Option RPath),
      EntryRead.err ∈ entries →
      ∃ m, scan_entries dir entries acc = Except.error m
  | [], _, h => absurd h (List.not_mem_nil _)
  | EntryRead.err :: _, _, _ => ⟨_, rfl⟩
  | EntryRead.ok _ none :: _, _, _ => ⟨_, rfl⟩
  | EntryRead.ok nm (some isDir) :: rest, acc, h =>
      scan_entries_error_of_entry_err dir rest
        (if isDir then some (dir.join [nm]) else acc)
        (by
          rcases List.mem_cons.mp h with h1 | h1
          · exact EntryRead.noConfusion h1
          · exact h1)

/-- If a file-type query fails on some entry, the scan loop aborts with an
error (for any accumulator). -/
theorem scan_entries_error_of_ftype_err (dir : RPath) (bad : String) :
    ∀ (entries : List EntryRead) (acc : Option RPath),
      EntryRead.ok bad none ∈ entries →
      ∃ m, scan_entries dir entries acc = Except.error m
  | [], _, h => absurd h (List.not_mem_nil _)
  | EntryRead.err :: _, _, _ => ⟨_, rfl⟩
  | EntryRead.ok _ none :: _, _, _ => ⟨_, rfl⟩
  | EntryRead.ok nm (some isDir) :: rest, acc, h =>
      scan_entries_error_of_ftype_err dir bad rest
        (if isDir then some (dir.join [nm]) else acc)
        (by
          rcases List.mem_cons.mp h with h1 | h1
          · rcases h1 with ⟨⟩
          · exact h1)

/-- A failing scan makes `get_cached_server_binary` return `none`. -/
theorem get_cached_none_of_scan_error (node : NodeRuntime) (dir : RPath)
    (fs : Filesystem) (entries : List EntryRead) (m : String)
    (hrd : fs.readDir dir = some entries)
    (hsc : scan_entries dir entries none = Except.error m) :
    get_cached_server_binary node dir fs = none := by
  unfold get_cached_server_binary
  simp only [hrd, hsc]
  rfl

/-- Claim C8: a cache miss is absorbed, never raised: when the container
directory holds no subdirectory (the scan completes with no directory-typed
entry), and likewise when the selected last subdirectory lacks the
entry-point file, `cached_server_binary` returns `none` to the caller. -/
theorem c8_cache_miss_is_none (node : NodeRuntime) (dir : RPath)
    (d : LspAdapterDelegate) (fs : Filesystem) (entries : List EntryRead) :
    (fs.readDir dir = some entries →
      scan_entries dir entries none = Except.ok none →
      cached_server_binary node dir d fs = none) ∧
    (∀ vdir : RPath,
      fs.readDir dir = some entries →
      scan_entries dir entries none = Except.ok (some vdir) →
      fs.pathExists (vdir.join serverPathComponents) = false →
      cached_server_binary node dir d fs = none) := by
  constructor
  · intro hrd hsc
    unfold cached_server_binary get_cached_server_binary
    simp only [hrd, hsc]
    rfl
  · intro vdir hrd hsc hex
    unfold cached_server_binary get_cached_server_binary
    simp only [hrd, hsc]
    rw [if_neg (by simp [hex])]
    rfl

/-- Witness for C8: an existing but empty container directory yields `none`. -/
theorem c8_witness :
    cached_server_binary nodeNoop dirC delegateC fsNoSub = none :=
  (c8_cache_miss_is_none nodeNoop dirC delegateC fsNoSub []).1 (by decide) rfl

/-- Claim C10: every filesystem failure of the cache scan — the container
directory unreadable, a directory entry unreadable, a file-type query
failing, or the runtime binary path unresolvable — is absorbed by
`cached_server_binary`, which returns `none` instead of propagating an
error. -/
theorem c10_fs_errors_absorbed (node : NodeRuntime) (dir : RPath)
    (d : LspAdapterDelegate) (fs : Filesystem) :
    (fs.readDir dir = none → cached_server_binary node dir d fs = none) ∧
    (∀ entries : List EntryRead, fs.readDir dir = some entries →
      EntryRead.err ∈ entries → cached_server_binary node dir d fs = none) ∧
    (∀ (entries : List EntryRead) (nm : String),
      fs.readDir dir = some entries → EntryRead.ok nm none ∈ entries →
      cached_server_binary node dir d fs = none) ∧
    (∀ e : String, node.binary_path = Except.error e →
      cached_server_binary node dir d fs = none) := by
  refine ⟨?_, ?_, ?_, ?_⟩
  · intro hrd
    unfold cached_server_binary get_cached_server_binary
    simp only [hrd]
    rfl
  · intro entries hrd hmem
    obtain ⟨m, hm⟩ := scan_entries_error_of_entry_err dir entries none hmem
    exact get_cached_none_of_scan_error node dir fs entries m hrd hm
  · intro entries nm hrd hmem
    obtain ⟨m, hm⟩ := scan_entries_error_of_ftype_err dir nm entries none hmem
    exact get_cached_none_of_scan_error node dir fs entries m hrd hm
  · intro e hbp
    unfold cached_server_binary get_cached_server_binary
    rcases hrd : fs.readDir dir with _ | entries
    · simp only [hrd]
      rfl
    · simp only [hrd]
      rcases hsc : scan_entries dir entries none with m | od
      · simp only [hsc]
        rfl
      · rcases od with _ | vd
        · simp only [hsc]
          rfl
        · simp only [hsc]
          by_cases hex : fs.pathExists (vd.join serverPathComponents) = true
          · rw [if_pos hex]
            unfold finishBinary
            rw [hbp]
            rfl
          · rw [if_neg hex]
            rfl

/-- Witness for C10: a filesystem whose directory read fails yields `none`. -/
theorem c10_witness :
    cached_server_binary nodeNoop dirC delegateC fsEmpty = none :=
  (c10_fs_errors_absorbed nodeNoop dirC delegateC fsEmpty).1 rfl

/-- Claim C2 counterexample: with a transport whose install call succeeds
without creating any file, `fetch_server_binary` still returns a launch
descriptor referencing `dirC/SERVER_PATH`, although that path does not
exist in the filesystem left after the call — no existence check was
performed after installing. -/
theorem c2_counterexample :
    fetch_server_binary nodeNoop (AnyValue.str "1.0.0") dirC fsEmpty =
      POutcome.returns
        (Except.ok ⟨nodeBin, server_binary_arguments spTop⟩, fsEmpty, 1) ∧
    fsEmpty.pathExists spTop = false :=
  ⟨rfl, rfl⟩

/-- Claim C2 (amended): `get_cached_server_binary` returns only descriptors
whose referenced entry point it confirmed to exist at scan time;
`fetch_server_binary` confirms existence itself only on the skip-install
path — when it installs, the returned descriptor's entry point exists after
the call only under the assumption that a successful install call creates
the expected entry-point file. -/
theorem c2_entry_point_confirmation :
    (∀ (node : NodeRuntime) (dir : RPath) (fs : Filesystem)
        (b : LanguageServerBinary),
      get_cached_server_binary node dir fs = some b →
      ∃ sp, b.arguments = server_binary_arguments sp ∧
        fs.pathExists sp = true) ∧
    (∀ (node : NodeRuntime) (v : String) (dir : RPath) (fs : Filesystem)
        (out : Except String LanguageServerBinary × Filesystem × Nat)
        (b : LanguageServerBinary),
      (∀ fsx : Filesystem,
        (node.npm_install_packages dir "vscode-json-languageserver" v fsx).1 =
          Except.ok () →
        ((node.npm_install_packages dir "vscode-json-languageserver" v
            fsx).2).pathExists (dir.join serverPathComponents) = true) →
      fetch_server_binary node (AnyValue.str v) dir fs =
        POutcome.returns out →
      out.1 = Except.ok b →
      b.arguments = server_binary_arguments (dir.join serverPathComponents) ∧
      out.2.1.pathExists (dir.join serverPathComponents) = true) := by
  constructor
  · intro node dir fs b h
    unfold get_cached_server_binary at h
    rcases hrd : fs.readDir dir with _ | entries
    · rw [hrd] at h
      exact absurd h (by simp [log_err])
    · rw [hrd] at h
      rcases hsc : scan_entries dir entries none with m | od
      · simp only [hsc, log_err] at h
        exact Option.noConfusion h
      · rcases od with _ | vd
        · simp only [hsc, log_err] at h
          exact Option.noConfusion h
        · simp only [hsc] at h
          by_cases hex : fs.pathExists (vd.join serverPathComponents) = true
          · rw [if_pos hex] at h
            rcases hbp : node.binary_path with e | bp
            · unfold finishBinary at h
              rw [hbp] at h
              simp [log_err] at h
            · unfold finishBinary at h
              rw [hbp] at h
              simp only [log_err, Option.some.injEq] at h
              exact ⟨vd.join serverPathComponents, by rw [← h], hex⟩
          · rw [if_neg hex] at h
            simp [log_err] at h
  · intro node v dir fs out b hcreate hfetch hok
    simp only [fetch_server_binary] at hfetch
    by_cases hex : fs.pathExists (dir.join serverPathComponents) = true
    · rw [if_pos hex] at hfetch
      rcases hfetch with ⟨⟩
      rcases hbp : node.binary_path with e | bp
      · unfold finishBinary at hok
        rw [hbp] at hok
        exact Except.noConfusion hok
      · unfold finishBinary at hok
        rw [hbp] at hok
        rcases hok with ⟨⟩
        exact ⟨rfl, hex⟩
    · rw [if_neg hex] at hfetch
      rcases hinst : (node.npm_install_packages dir
          "vscode-json-languageserver" v fs).1 with e | u
      · rw [hinst] at hfetch
        rcases hfetch with ⟨⟩
        exact Except.noConfusion hok
      · rw [hinst] at hfetch
        rcases hfetch with ⟨⟩
        obtain ⟨⟩ := u
        refine ⟨?_, hcreate fs hinst⟩
        rcases hbp : node.binary_path with e | bp
        · unfold finishBinary at hok
          rw [hbp] at hok
          exact Except.noConfusion hok
        · unfold finishBinary at hok
          rw [hbp] at hok
          rcases hok with ⟨⟩
          rfl

/-- Witness for C2: a concrete cache hit whose descriptor references an
entry point that exists. -/
theorem c2_witness :
    ∃ sp, (⟨nodeBin, server_binary_arguments sp1⟩ :
        LanguageServerBinary).arguments = server_binary_arguments sp ∧
      fsOneValid.pathExists sp = true :=
  c2_entry_point_confirmation.1 nodeNoop dirC fsOneValid
    ⟨nodeBin, server_binary_arguments sp1⟩ (by decide)

/-- Claim C3: whenever the expected entry-point path already exists,
`fetch_server_binary` skips installation; consequently two sequential calls
with the same version and container directory invoke `npm_install_packages`
at most once, provided the transport's successful install creates the
expected entry-point path. -/
theorem c3_install_at_most_once (node : NodeRuntime) (v : String)
    (dir : RPath) (fs : Filesystem)
    (hcreate : ∀ fsx : Filesystem,
      (node.npm_install_packages dir "vscode-json-languageserver" v fsx).1 =
        Except.ok () →
      ((node.npm_install_packages dir "vscode-json-languageserver" v
          fsx).2).pathExists (dir.join serverPathComponents) = true)
    (hok : (node.npm_install_packages dir "vscode-json-languageserver" v
        fs).1 = Except.ok ()) :
    ∃ r1 fs1 n1 r2 fs2 n2,
      fetch_server_binary node (AnyValue.str v) dir fs =
        POutcome.returns (r1, fs1, n1) ∧
      fetch_server_binary node (AnyValue.str v) dir fs1 =
        POutcome.returns (r2, fs2, n2) ∧
      n1 + n2 ≤ 1 ∧
      (fs.pathExists (dir.join serverPathComponents) = true →
        n1 = 0 ∧ n2 = 0) := by
  by_cases hex : fs.pathExists (dir.join serverPathComponents) = true
  · refine ⟨finishBinary node (dir.join serverPathComponents), fs, 0,
      finishBinary node (dir.join serverPathComponents), fs, 0,
      ?_, ?_, by norm_num, fun _ => ⟨rfl, rfl⟩⟩
    · simp only [fetch_server_binary]
      rw [if_pos hex]
    · simp only [fetch_server_binary]
      rw [if_pos hex]
  · have h2 := hcreate fs hok
    refine ⟨finishBinary node (dir.join serverPathComponents),
      (node.npm_install_packages dir "vscode-json-languageserver" v fs).2, 1,
      finishBinary node (dir.join serverPathComponents),
      (node.npm_install_packages dir "vscode-json-languageserver" v fs).2, 0,
      ?_, ?_, by norm_num, fun hc => absurd hc hex⟩
    · simp only [fetch_server_binary]
      rw [if_neg hex, hok]
    · simp only [fetch_server_binary]
      rw [if_pos h2]

/-- Witness for C3: an initially empty filesystem with a transport that
creates the entry point on successful install. -/
theorem c3_witness :
    ∃ r1 fs1 n1 r2 fs2 n2,
      fetch_server_binary nodeCreating (AnyValue.str "1.0.0") dirC fsEmpty =
        POutcome.returns (r1, fs1, n1) ∧
      fetch_server_binary nodeCreating (AnyValue.str "1.0.0") dirC fs1 =
        POutcome.returns (r2, fs2, n2) ∧
      n1 + n2 ≤ 1 ∧
      (fsEmpty.pathExists (dirC.join serverPathComponents) = true →
        n1 = 0 ∧ n2 = 0) :=
  c3_install_at_most_once nodeCreating "1.0.0" dirC fsEmpty
    (by intro fsx _; simp [nodeCreating]) rfl

/-- Claim C4: for every workspace/host context — any registered action
names, staff flag, language names, and schema generators —
`workspace_configuration` (given path constants with at least two
components, as the host's are) returns a document whose `json.format.enable`
flag is `true` and whose `json.schemas` array holds exactly two bindings in
fixed order: the settings binding first (`fileMatch` = relativized settings
path and the local-settings relative path), the keymap binding second
(`fileMatch` = relativized keymap path). -/
theorem c4_workspace_configuration_shape (language_names : List String)
    (cx : HostContext)
    (hs : 2 ≤ cx.settingsPath.components.length)
    (hk : 2 ≤ cx.keymapPath.components.length) :
    ∃ (doc : JsonValue) (sm km : RPath),
      schema_file_match cx.settingsPath = some sm ∧
      schema_file_match cx.keymapPath = some km ∧
      workspace_configuration language_names cx = POutcome.returns doc ∧
      ((doc.getField "json").bind (fun j => (j.getField "format").bind
        (fun f => f.getField "enable"))) = some (JsonValue.bool true) ∧
      ∃ schemas : List JsonValue,
        ((doc.getField "json").bind (fun j => (j.getField "schemas").bind
          JsonValue.getArr)) = some schemas ∧
        schemas.length = 2 ∧
        ((schemas.get? 0).bind (fun s => s.getField "fileMatch")) =
          some (JsonValue.arr [JsonValue.str (renderPath sm),
            JsonValue.str (renderPath cx.localSettingsRelativePath)]) ∧
        ((schemas.get? 1).bind (fun s => s.getField "fileMatch")) =
          some (JsonValue.arr [JsonValue.str (renderPath km)]) := by
  obtain ⟨sm, hsm⟩ := schema_file_match_some_of_len hs
  obtain ⟨km, hkm⟩ := schema_file_match_some_of_len hk
  have hw : workspace_configuration language_names cx =
      POutcome.returns (JsonValue.obj [("json", JsonValue.obj
        [("format", JsonValue.obj [("enable", JsonValue.bool true)]),
         ("schemas", JsonValue.arr
           [JsonValue.obj
              [("fileMatch", JsonValue.arr
                 [JsonValue.str (renderPath sm),
                  JsonValue.str (renderPath cx.localSettingsRelativePath)]),
               ("schema",
                 cx.settings_json_schema language_names cx.is_staff)],
            JsonValue.obj
              [("fileMatch", JsonValue.arr
                 [JsonValue.str (renderPath km)]),
               ("schema",
                 cx.keymap_json_schema cx.all_action_names)]])])]) := by
    unfold workspace_configuration
    simp only [hsm, hkm]
  exact ⟨_, sm, km, hsm, hkm, hw, rfl, _, rfl, rfl, rfl, rfl⟩

/-- Witness for C4 at a concrete host context. -/
theorem c4_witness :
    ∃ (doc : JsonValue) (sm km : RPath),
      schema_file_match cxC.settingsPath = some sm ∧
      schema_file_match cxC.keymapPath = some km ∧
      workspace_configuration ["JSON"] cxC = POutcome.returns doc ∧
      ((doc.getField "json").bind (fun j => (j.getField "format").bind
        (fun f => f.getField "enable"))) = some (JsonValue.bool true) ∧
      ∃ schemas : List JsonValue,
        ((doc.getField "json").bind (fun j => (j.getField "schemas").bind
          JsonValue.getArr)) = some schemas ∧
        schemas.length = 2 ∧
        ((schemas.get? 0).bind (fun s => s.getField "fileMatch")) =
          some (JsonValue.arr [JsonValue.str (renderPath sm),
            JsonValue.str (renderPath cxC.localSettingsRelativePath)]) ∧
        ((schemas.get? 1).bind (fun s => s.getField "fileMatch")) =
          some (JsonValue.arr [JsonValue.str (renderPath km)]) :=
  c4_workspace_configuration_shape ["JSON"] cxC (by decide) (by decide)
